import Mathlib

/-!
Shallow embedding of the transaction-pool error taxonomy and the payload
validation helpers of the `reth` repository, together with theorems settling
the specification claims about them.

Sources embedded:
* `crates/transaction-pool/src/error.rs` — `PoolError`, `PoolErrorKind`,
  `InvalidPoolTransactionError`, `Eip4844PoolTransactionError`,
  `Eip7702PoolTransactionError` and their `is_bad_transaction` classifiers.
* `crates/payload/primitives/src/lib.rs` — `validate_payload_timestamp`,
  `validate_execution_requests`, `EngineApiMessageVersion`.

Machine integers (`u64`, `u128`, `usize`, `U256`, `u8`, addresses, hashes) are
modelled as `Nat`; none of the embedded functions performs arithmetic on them
(they only match on constructors or compare), so no overflow wrapping arises.
-/

/-- Consensus-level invalid-transaction error from `reth_primitives_traits`
(external to the pool crate; its full variant list is fixed by the exhaustive
match in `InvalidPoolTransactionError::is_bad_transaction`). Payload fields of
`InsufficientFunds` and `NonceNotConsistent` are modelled as `Nat`; the
classifier ignores them. -/
inductive InvalidTransactionError where
  | InsufficientFunds (cost : Nat) (balance : Nat)
  | NonceNotConsistent (tx : Nat) (state : Nat)
  | GasTooLow
  | GasTooHigh
  | TipAboveFeeCap
  | FeeCapTooLow
  | Eip2930Disabled
  | Eip1559Disabled
  | Eip4844Disabled
  | Eip7702Disabled
  | OldLegacyChainId
  | ChainIdMismatch
  | GasUintOverflow
  | TxTypeNotSupported
  | SignerAccountHasBytecode
  | GasLimitTooHigh
deriving DecidableEq, Repr

/-- Opaque payload of `InvalidEip4844Blob` (external
`BlobTransactionValidationError`); the classifier never inspects it. -/
structure BlobTransactionValidationError where
  code : Nat
deriving DecidableEq, Repr

/-- `Eip4844PoolTransactionError` from `crates/transaction-pool/src/error.rs`.
The two payload fields of `TooManyEip4844Blobs` are the source's `have` and
`permitted` counts (`have` is a Lean keyword, hence positional fields). -/
inductive Eip4844PoolTransactionError where
  | MissingEip4844BlobSidecar
  | NoEip4844Blobs
  | TooManyEip4844Blobs (haveCount : Nat) (permitted : Nat)
  | InvalidEip4844Blob (err : BlobTransactionValidationError)
  | Eip4844NonceGap
  | UnexpectedEip7594SidecarBeforeOsaka
  | UnexpectedEip4844SidecarAfterOsaka
deriving DecidableEq, Repr

/-- `Eip7702PoolTransactionError` from `crates/transaction-pool/src/error.rs`. -/
inductive Eip7702PoolTransactionError where
  | MissingEip7702AuthorizationList
  | OutOfOrderTxFromDelegated
  | InflightTxLimitReached
  | AuthorityReserved
deriving DecidableEq, Repr

/-- The `dyn PoolTransactionError` trait object held by
`InvalidPoolTransactionError::Other`: the only capability the classifier uses
is its `is_bad_transaction` bit. -/
structure PoolTransactionError where
  is_bad_transaction : Bool
deriving DecidableEq, Repr

/-- `InvalidPoolTransactionError` from `crates/transaction-pool/src/error.rs`. -/
inductive InvalidPoolTransactionError where
  | Consensus (err : InvalidTransactionError)
  | ExceedsGasLimit (txGas : Nat) (blockGas : Nat)
  | MaxTxGasLimitExceeded (txGas : Nat) (maxGas : Nat)
  | ExceedsFeeCap (max_tx_fee_wei : Nat) (tx_fee_cap_wei : Nat)
  | ExceedsMaxInitCodeSize (size : Nat) (maxSize : Nat)
  | OversizedData (size : Nat) (maxSize : Nat)
  | Underpriced
  | Overdraft (cost : Nat) (balance : Nat)
  | Eip2681
  | Eip4844 (err : Eip4844PoolTransactionError)
  | Eip7702 (err : Eip7702PoolTransactionError)
  | Other (err : PoolTransactionError)
  | IntrinsicGasTooLow
  | PriorityFeeBelowMinimum (minimum_priority_fee : Nat)
deriving DecidableEq, Repr

/-- Opaque payload of `PoolErrorKind::Other`
(`Box<dyn core::error::Error + Send + Sync>`). -/
structure OtherPoolError where
  code : Nat
deriving DecidableEq, Repr

/-- `PoolErrorKind` from `crates/transaction-pool/src/error.rs`. -/
inductive PoolErrorKind where
  | AlreadyImported
  | ReplacementUnderpriced
  | FeeCapBelowMinimumProtocolFeeCap (feeCap : Nat)
  | SpammerExceededCapacity (addr : Nat)
  | DiscardedOnInsert
  | InvalidTransaction (err : InvalidPoolTransactionError)
  | ExistingConflictingTransactionType (addr : Nat) (txType : Nat)
  | Other (err : OtherPoolError)
deriving DecidableEq, Repr

/-- `PoolError` from `crates/transaction-pool/src/error.rs`. -/
structure PoolError where
  hash : Nat
  kind : PoolErrorKind
deriving DecidableEq, Repr

/-- `InvalidPoolTransactionError::is_bad_transaction`
(`crates/transaction-pool/src/error.rs`, lines 293-392), translated arm by
arm from the nested Rust match. -/
def InvalidPoolTransactionError.is_bad_transaction :
    InvalidPoolTransactionError → Bool
  | .Consensus err =>
    match err with
    | .InsufficientFunds _ _ => false
    | .NonceNotConsistent _ _ => false
    | .GasTooLow => false
    | .GasTooHigh => false
    | .TipAboveFeeCap => false
    | .FeeCapTooLow => false
    | .Eip2930Disabled => false
    | .Eip1559Disabled => false
    | .Eip4844Disabled => false
    | .Eip7702Disabled => false
    | .OldLegacyChainId => true
    | .ChainIdMismatch => true
    | .GasUintOverflow => true
    | .TxTypeNotSupported => true
    | .SignerAccountHasBytecode => true
    | .GasLimitTooHigh => true
  | .ExceedsGasLimit _ _ => true
  | .MaxTxGasLimitExceeded _ _ => false
  | .ExceedsFeeCap _ _ => true
  | .ExceedsMaxInitCodeSize _ _ => true
  | .OversizedData _ _ => true
  | .Underpriced => false
  | .IntrinsicGasTooLow => true
  | .Overdraft _ _ => false
  | .Other err => err.is_bad_transaction
  | .Eip2681 => true
  | .Eip4844 eip4844_err =>
    match eip4844_err with
    | .MissingEip4844BlobSidecar => false
    | .InvalidEip4844Blob _ => true
    | .Eip4844NonceGap => false
    | .NoEip4844Blobs => true
    | .TooManyEip4844Blobs _ _ => true
    | .UnexpectedEip4844SidecarAfterOsaka => false
    | .UnexpectedEip7594SidecarBeforeOsaka => false
  | .Eip7702 eip7702_err =>
    match eip7702_err with
    | .MissingEip7702AuthorizationList => true
    | .OutOfOrderTxFromDelegated => false
    | .InflightTxLimitReached => false
    | .AuthorityReserved => false
  | .PriorityFeeBelowMinimum _ => false

/-- `PoolError::is_bad_transaction`
(`crates/transaction-pool/src/error.rs`, lines 104-147). -/
def PoolError.is_bad_transaction (e : PoolError) : Bool :=
  match e.kind with
  | .AlreadyImported => false
  | .ReplacementUnderpriced => false
  | .FeeCapBelowMinimumProtocolFeeCap _ => false
  | .SpammerExceededCapacity _ => false
  | .DiscardedOnInsert => false
  | .InvalidTransaction err => err.is_bad_transaction
  | .Other _ => false
  | .ExistingConflictingTransactionType _ _ => false

/-- `InvalidPoolTransactionError::is_oversized`
(`crates/transaction-pool/src/error.rs`, lines 395-397). -/
def InvalidPoolTransactionError.is_oversized :
    InvalidPoolTransactionError → Bool
  | .OversizedData _ _ => true
  | _ => false

/-- `InvalidPoolTransactionError::is_nonce_gap`
(`crates/transaction-pool/src/error.rs`, lines 400-403). -/
def InvalidPoolTransactionError.is_nonce_gap :
    InvalidPoolTransactionError → Bool
  | .Consensus (.NonceNotConsistent _ _) => true
  | .Eip4844 .Eip4844NonceGap => true
  | _ => false

/-- C1: every structurally-malformed / consensus-illegal leaf the spec
enumerates — `GasUintOverflow`, `TxTypeNotSupported`,
`SignerAccountHasBytecode`, `ExceedsFeeCap`, `OversizedData`,
`MissingEip7702AuthorizationList`, `NoEip4844Blobs`, `TooManyEip4844Blobs` —
is classified bad by `InvalidPoolTransactionError::is_bad_transaction`, and a
`PoolError` wrapping that leaf under `PoolErrorKind::InvalidTransaction` is
classified bad by `PoolError::is_bad_transaction`. -/
theorem bad_leaves_are_bad :
    ((InvalidPoolTransactionError.Consensus .GasUintOverflow).is_bad_transaction = true) ∧
    ((InvalidPoolTransactionError.Consensus .TxTypeNotSupported).is_bad_transaction = true) ∧
    ((InvalidPoolTransactionError.Consensus .SignerAccountHasBytecode).is_bad_transaction = true) ∧
    (∀ a b : Nat, (InvalidPoolTransactionError.ExceedsFeeCap a b).is_bad_transaction = true) ∧
    (∀ a b : Nat, (InvalidPoolTransactionError.OversizedData a b).is_bad_transaction = true) ∧
    ((InvalidPoolTransactionError.Eip7702 .MissingEip7702AuthorizationList).is_bad_transaction = true) ∧
    ((InvalidPoolTransactionError.Eip4844 .NoEip4844Blobs).is_bad_transaction = true) ∧
    (∀ a b : Nat, (InvalidPoolTransactionError.Eip4844 (.TooManyEip4844Blobs a b)).is_bad_transaction = true) ∧
    (∀ h : Nat,
      (PoolError.mk h (.InvalidTransaction (.Consensus .GasUintOverflow))).is_bad_transaction = true ∧
      (PoolError.mk h (.InvalidTransaction (.Consensus .TxTypeNotSupported))).is_bad_transaction = true ∧
      (PoolError.mk h (.InvalidTransaction (.Consensus .SignerAccountHasBytecode))).is_bad_transaction = true ∧
      (∀ a b : Nat, (PoolError.mk h (.InvalidTransaction (.ExceedsFeeCap a b))).is_bad_transaction = true) ∧
      (∀ a b : Nat, (PoolError.mk h (.InvalidTransaction (.OversizedData a b))).is_bad_transaction = true) ∧
      (PoolError.mk h (.InvalidTransaction (.Eip7702 .MissingEip7702AuthorizationList))).is_bad_transaction = true ∧
      (PoolError.mk h (.InvalidTransaction (.Eip4844 .NoEip4844Blobs))).is_bad_transaction = true ∧
      (∀ a b : Nat, (PoolError.mk h (.InvalidTransaction (.Eip4844 (.TooManyEip4844Blobs a b)))).is_bad_transaction = true)) :=
  ⟨rfl, rfl, rfl, fun _ _ => rfl, fun _ _ => rfl, rfl, rfl, fun _ _ => rfl,
   fun _ => ⟨rfl, rfl, rfl, fun _ _ => rfl, fun _ _ => rfl, rfl, rfl, fun _ _ => rfl⟩⟩

/-- C3: the race- / configuration- / timing-dependent rejection causes are all
classified not-bad: `InsufficientFunds`, both nonce-gap leaves, the four
fork-disabled type leaves, the per-tx gas cap, `Underpriced`,
`PriorityFeeBelowMinimum`, `Overdraft`, and the pool-level kinds
`SpammerExceededCapacity`, `DiscardedOnInsert`, `AlreadyImported`,
`ReplacementUnderpriced`. -/
theorem benign_leaves_not_bad :
    (∀ a b : Nat, (InvalidPoolTransactionError.Consensus (.InsufficientFunds a b)).is_bad_transaction = false) ∧
    (∀ a b : Nat, (InvalidPoolTransactionError.Consensus (.NonceNotConsistent a b)).is_bad_transaction = false) ∧
    ((InvalidPoolTransactionError.Eip4844 .Eip4844NonceGap).is_bad_transaction = false) ∧
    ((InvalidPoolTransactionError.Consensus .Eip2930Disabled).is_bad_transaction = false) ∧
    ((InvalidPoolTransactionError.Consensus .Eip1559Disabled).is_bad_transaction = false) ∧
    ((InvalidPoolTransactionError.Consensus .Eip4844Disabled).is_bad_transaction = false) ∧
    ((InvalidPoolTransactionError.Consensus .Eip7702Disabled).is_bad_transaction = false) ∧
    (∀ a b : Nat, (InvalidPoolTransactionError.MaxTxGasLimitExceeded a b).is_bad_transaction = false) ∧
    (InvalidPoolTransactionError.Underpriced.is_bad_transaction = false) ∧
    (∀ m : Nat, (InvalidPoolTransactionError.PriorityFeeBelowMinimum m).is_bad_transaction = false) ∧
    (∀ a b : Nat, (InvalidPoolTransactionError.Overdraft a b).is_bad_transaction = false) ∧
    (∀ h a : Nat, (PoolError.mk h (.SpammerExceededCapacity a)).is_bad_transaction = false) ∧
    (∀ h : Nat, (PoolError.mk h .DiscardedOnInsert).is_bad_transaction = false) ∧
    (∀ h : Nat, (PoolError.mk h .AlreadyImported).is_bad_transaction = false) ∧
    (∀ h : Nat, (PoolError.mk h .ReplacementUnderpriced).is_bad_transaction = false) :=
  ⟨fun _ _ => rfl, fun _ _ => rfl, rfl, rfl, rfl, rfl, rfl, fun _ _ => rfl, rfl,
   fun _ => rfl, fun _ _ => rfl, fun _ _ => rfl, fun _ => rfl, fun _ => rfl, fun _ => rfl⟩

/-- C4: `PoolError::is_bad_transaction` is true exactly when the kind is
`InvalidTransaction(leaf)` with a bad leaf; all seven other kinds — in
particular internal errors wrapped as `Other` — yield false. -/
theorem pool_error_bad_only_via_invalid_transaction :
    (∀ e : PoolError, e.is_bad_transaction = true ↔
      ∃ leaf : InvalidPoolTransactionError,
        e.kind = .InvalidTransaction leaf ∧ leaf.is_bad_transaction = true) ∧
    (∀ h : Nat, (PoolError.mk h .AlreadyImported).is_bad_transaction = false) ∧
    (∀ h : Nat, (PoolError.mk h .ReplacementUnderpriced).is_bad_transaction = false) ∧
    (∀ h v : Nat, (PoolError.mk h (.FeeCapBelowMinimumProtocolFeeCap v)).is_bad_transaction = false) ∧
    (∀ h a : Nat, (PoolError.mk h (.SpammerExceededCapacity a)).is_bad_transaction = false) ∧
    (∀ h : Nat, (PoolError.mk h .DiscardedOnInsert).is_bad_transaction = false) ∧
    (∀ h a t : Nat, (PoolError.mk h (.ExistingConflictingTransactionType a t)).is_bad_transaction = false) ∧
    (∀ h : Nat, ∀ o : OtherPoolError, (PoolError.mk h (.Other o)).is_bad_transaction = false) := by
  refine ⟨?_, fun _ => rfl, fun _ => rfl, fun _ _ => rfl, fun _ _ => rfl,
    fun _ => rfl, fun _ _ _ => rfl, fun _ _ => rfl⟩
  intro e
  obtain ⟨h, k⟩ := e
  cases k <;> simp [PoolError.is_bad_transaction]

/-- C7: `PoolErrorKind` is a closed enumeration of exactly the eight variants
the spec lists, with exactly the listed payloads. -/
theorem pool_error_kind_closed :
    ∀ k : PoolErrorKind,
      k = .AlreadyImported ∨
      k = .ReplacementUnderpriced ∨
      (∃ v : Nat, k = .FeeCapBelowMinimumProtocolFeeCap v) ∨
      (∃ a : Nat, k = .SpammerExceededCapacity a) ∨
      k = .DiscardedOnInsert ∨
      (∃ a t : Nat, k = .ExistingConflictingTransactionType a t) ∨
      (∃ leaf : InvalidPoolTransactionError, k = .InvalidTransaction leaf) ∨
      (∃ o : OtherPoolError, k = .Other o) := by
  intro k
  cases k <;> simp

/-- C8: the EIP-4844 and EIP-7702 leaf sets are closed and match the spec's
enumeration: exactly missing-sidecar, no-blobs, too-many-blobs,
invalid-sidecar-proof, blob nonce-gap and the two sidecar-version-mismatch
forms for EIP-4844, and exactly the four listed leaves for EIP-7702. -/
theorem blob_and_auth_leaf_sets_closed :
    (∀ e : Eip4844PoolTransactionError,
      e = .MissingEip4844BlobSidecar ∨
      e = .NoEip4844Blobs ∨
      (∃ a b : Nat, e = .TooManyEip4844Blobs a b) ∨
      (∃ err : BlobTransactionValidationError, e = .InvalidEip4844Blob err) ∨
      e = .Eip4844NonceGap ∨
      e = .UnexpectedEip7594SidecarBeforeOsaka ∨
      e = .UnexpectedEip4844SidecarAfterOsaka) ∧
    (∀ e : Eip7702PoolTransactionError,
      e = .MissingEip7702AuthorizationList ∨
      e = .OutOfOrderTxFromDelegated ∨
      e = .InflightTxLimitReached ∨
      e = .AuthorityReserved) := by
  constructor
  · intro e
    cases e <;> simp
  · intro e
    cases e <;> simp

/-- C2 counterexample: leaves the claim asserts are not-bad are in fact
classified bad by the code: exceeds-block-gas-limit,
exceeds-max-init-code-size, intrinsic-gas-too-low, the EIP-2681 bound,
chain-id mismatch and invalid-blob-sidecar-proof all return `true`. -/
theorem spec_benign_leaves_actually_bad :
    ((InvalidPoolTransactionError.ExceedsGasLimit 0 0).is_bad_transaction = true) ∧
    ((InvalidPoolTransactionError.ExceedsMaxInitCodeSize 0 0).is_bad_transaction = true) ∧
    (InvalidPoolTransactionError.IntrinsicGasTooLow.is_bad_transaction = true) ∧
    (InvalidPoolTransactionError.Eip2681.is_bad_transaction = true) ∧
    ((InvalidPoolTransactionError.Consensus .ChainIdMismatch).is_bad_transaction = true) ∧
    ((InvalidPoolTransactionError.Eip4844 (.InvalidEip4844Blob ⟨0⟩)).is_bad_transaction = true) :=
  ⟨rfl, rfl, rfl, rfl, rfl, rfl⟩

/-- C2 amended: exact characterization of the bad set. A leaf is bad iff it is
one of: `OldLegacyChainId`, `ChainIdMismatch`, `GasUintOverflow`,
`TxTypeNotSupported`, `SignerAccountHasBytecode`, `GasLimitTooHigh`,
exceeds-block-gas-limit, fee-cap-exceeded, exceeds-max-init-code-size,
oversized data, intrinsic-gas-too-low, the EIP-2681 bound,
invalid-blob-sidecar-proof, no-blobs, too-many-blobs, empty authorization
list, or an `Other` payload that classifies itself bad; every remaining leaf
returns false. -/
theorem bad_leaf_characterization :
    ∀ e : InvalidPoolTransactionError, e.is_bad_transaction = true ↔
      ((∃ c : InvalidTransactionError, e = .Consensus c ∧
          (c = .OldLegacyChainId ∨ c = .ChainIdMismatch ∨ c = .GasUintOverflow ∨
           c = .TxTypeNotSupported ∨ c = .SignerAccountHasBytecode ∨ c = .GasLimitTooHigh)) ∨
       (∃ a b : Nat, e = .ExceedsGasLimit a b) ∨
       (∃ a b : Nat, e = .ExceedsFeeCap a b) ∨
       (∃ a b : Nat, e = .ExceedsMaxInitCodeSize a b) ∨
       (∃ a b : Nat, e = .OversizedData a b) ∨
       e = .IntrinsicGasTooLow ∨
       e = .Eip2681 ∨
       (∃ err : BlobTransactionValidationError, e = .Eip4844 (.InvalidEip4844Blob err)) ∨
       e = .Eip4844 .NoEip4844Blobs ∨
       (∃ a b : Nat, e = .Eip4844 (.TooManyEip4844Blobs a b)) ∨
       e = .Eip7702 .MissingEip7702AuthorizationList ∨
       (∃ o : PoolTransactionError, e = .Other o ∧ o.is_bad_transaction = true)) := by
  intro e
  cases e with
  | Consensus c => cases c <;> simp [InvalidPoolTransactionError.is_bad_transaction]
  | Eip4844 b => cases b <;> simp [InvalidPoolTransactionError.is_bad_transaction]
  | Eip7702 a => cases a <;> simp [InvalidPoolTransactionError.is_bad_transaction]
  | Other o => simp [InvalidPoolTransactionError.is_bad_transaction]
  | _ => simp [InvalidPoolTransactionError.is_bad_transaction]

/-- `VersionSpecificValidationError` variants used by the payload validation
helpers in `crates/payload/primitives/src/lib.rs` (the enum itself lives in
the crate's `error` module). -/
inductive VersionSpecificValidationError where
  | WithdrawalsNotSupportedInV1
  | NoWithdrawalsPostShanghai
  | HasWithdrawalsPreShanghai
  | ParentBeaconBlockRootNotSupportedBeforeV3
  | NoParentBeaconBlockRootPostCancun
deriving DecidableEq, Repr

/-- `EngineObjectValidationError` variants used by the payload validation
helpers in `crates/payload/primitives/src/lib.rs`. `InvalidParams` carries the
boxed message produced by `.to_string().into()`. -/
inductive EngineObjectValidationError where
  | Payload (err : VersionSpecificValidationError)
  | PayloadAttributes (err : VersionSpecificValidationError)
  | UnsupportedFork
  | InvalidParams (msg : String)
deriving DecidableEq, Repr

/-- The `EthereumHardforks` capability used by `validate_payload_timestamp`:
fork-activation queries by timestamp. -/
structure ChainSpec where
  is_cancun_active_at_timestamp : Nat → Bool
  is_prague_active_at_timestamp : Nat → Bool
  is_osaka_active_at_timestamp : Nat → Bool

/-- `EngineApiMessageVersion` from `crates/payload/primitives/src/lib.rs`. -/
inductive EngineApiMessageVersion where
  | V1
  | V2
  | V3
  | V4
  | V5
deriving DecidableEq, Repr

/-- `EngineApiMessageVersion::is_v1`. -/
def EngineApiMessageVersion.is_v1 : EngineApiMessageVersion → Bool
  | .V1 => true
  | _ => false

/-- `EngineApiMessageVersion::is_v2`. -/
def EngineApiMessageVersion.is_v2 : EngineApiMessageVersion → Bool
  | .V2 => true
  | _ => false

/-- `EngineApiMessageVersion::is_v3`. -/
def EngineApiMessageVersion.is_v3 : EngineApiMessageVersion → Bool
  | .V3 => true
  | _ => false

/-- `EngineApiMessageVersion::is_v4`. -/
def EngineApiMessageVersion.is_v4 : EngineApiMessageVersion → Bool
  | .V4 => true
  | _ => false

/-- `EngineApiMessageVersion::is_v5`. -/
def EngineApiMessageVersion.is_v5 : EngineApiMessageVersion → Bool
  | .V5 => true
  | _ => false

/-- `validate_payload_timestamp`
(`crates/payload/primitives/src/lib.rs`, lines 76-161): early `return Err`
becomes nested `if`/`else`. -/
def validate_payload_timestamp (chain_spec : ChainSpec)
    (version : EngineApiMessageVersion) (timestamp : Nat) :
    Except EngineObjectValidationError Unit :=
  let is_cancun := chain_spec.is_cancun_active_at_timestamp timestamp
  if version.is_v2 && is_cancun then
    .error .UnsupportedFork
  else if version.is_v3 && !is_cancun then
    .error .UnsupportedFork
  else
    let is_prague := chain_spec.is_prague_active_at_timestamp timestamp
    if version.is_v4 && !is_prague then
      .error .UnsupportedFork
    else
      let is_osaka := chain_spec.is_osaka_active_at_timestamp timestamp
      if version.is_v5 && !is_osaka then
        .error .UnsupportedFork
      else
        .ok ()

/-- C10: `validate_payload_timestamp` fails with `UnsupportedFork` exactly for
(V2 ∧ Cancun active), (V3 ∧ ¬Cancun), (V4 ∧ ¬Prague), (V5 ∧ ¬Osaka), succeeds
in every other case, and always succeeds for V1. -/
theorem validate_payload_timestamp_spec :
    ∀ (chain_spec : ChainSpec) (version : EngineApiMessageVersion) (ts : Nat),
      (validate_payload_timestamp chain_spec version ts = .error .UnsupportedFork ↔
        ((version = .V2 ∧ chain_spec.is_cancun_active_at_timestamp ts = true) ∨
         (version = .V3 ∧ chain_spec.is_cancun_active_at_timestamp ts = false) ∨
         (version = .V4 ∧ chain_spec.is_prague_active_at_timestamp ts = false) ∨
         (version = .V5 ∧ chain_spec.is_osaka_active_at_timestamp ts = false))) ∧
      (validate_payload_timestamp chain_spec version ts = .ok () ↔
        ¬ ((version = .V2 ∧ chain_spec.is_cancun_active_at_timestamp ts = true) ∨
           (version = .V3 ∧ chain_spec.is_cancun_active_at_timestamp ts = false) ∨
           (version = .V4 ∧ chain_spec.is_prague_active_at_timestamp ts = false) ∨
           (version = .V5 ∧ chain_spec.is_osaka_active_at_timestamp ts = false))) ∧
      validate_payload_timestamp chain_spec .V1 ts = .ok () := by
  intro chain_spec version ts
  cases version <;>
    cases hc : chain_spec.is_cancun_active_at_timestamp ts <;>
    cases hp : chain_spec.is_prague_active_at_timestamp ts <;>
    cases ho : chain_spec.is_osaka_active_at_timestamp ts <;>
    simp [validate_payload_timestamp, EngineApiMessageVersion.is_v2,
      EngineApiMessageVersion.is_v3, EngineApiMessageVersion.is_v4,
      EngineApiMessageVersion.is_v5, hc, hp, ho]

/-- `request[0]`, the request type byte read by the loop (only reached when
`request` has length at least 2). -/
def firstByte (request : List Nat) : Nat :=
  request.headD 0

/-- Loop body of `validate_execution_requests`
(`crates/payload/primitives/src/lib.rs`, lines 461-486), with the tracked
`last_request_type : Option<u8>` explicit. In the source the comparisons are
`Some(request_type) < last_request_type` and
`Some(request_type) == last_request_type`; both are false when
`last_request_type` is `None` (`None < Some(_)` in Rust's `Option` order),
which gives the two-armed match below. Bytes are `Nat` values. -/
def validate_execution_requests_loop (last_request_type : Option Nat) :
    List (List Nat) → Except EngineObjectValidationError Unit
  | [] => .ok ()
  | request :: rest =>
    if request.length ≤ 1 then
      .error (.InvalidParams "EmptyExecutionRequest")
    else
      match last_request_type with
      | some l =>
        if firstByte request < l then
          .error (.InvalidParams "OutOfOrderExecutionRequest")
        else if firstByte request = l then
          .error (.InvalidParams "DuplicatedExecutionRequestType")
        else
          validate_execution_requests_loop (some (firstByte request)) rest
      | none => validate_execution_requests_loop (some (firstByte request)) rest

/-- `validate_execution_requests`
(`crates/payload/primitives/src/lib.rs`, lines 461-486): the `for` loop starts
with `last_request_type = None`. -/
def validate_execution_requests (requests : List (List Nat)) :
    Except EngineObjectValidationError Unit :=
  validate_execution_requests_loop none requests

/-- The first bytes (request types) of a request list, as read by the loop. -/
def requestTypes (rs : List (List Nat)) : List Nat :=
  rs.map firstByte

/-- Ascending-types condition tracked by the loop state: with no previous
type, the types must be strictly increasing; with previous type `l`, they
must form a strictly increasing chain above `l`. -/
def typesAscendingFrom : Option Nat → List Nat → Prop
  | none, ts => List.Chain' (· < ·) ts
  | some l, ts => List.Chain (· < ·) l ts


theorem validate_execution_requests_loop_ok_iff (last : Option Nat)
    (rs : List (List Nat)) :
    validate_execution_requests_loop last rs = .ok () ↔
      (∀ r ∈ rs, 2 ≤ r.length) ∧ typesAscendingFrom last (requestTypes rs) := by
  induction rs generalizing last with
  | nil =>
    cases last <;>
      simp [validate_execution_requests_loop, requestTypes, typesAscendingFrom]
  | cons r rest ih =>
    simp only [requestTypes, List.map_cons, List.forall_mem_cons]
    by_cases hlen : r.length ≤ 1
    · simp only [validate_execution_requests_loop, if_pos hlen]
      refine iff_of_false (by simp) ?_
      rintro ⟨⟨hx, -⟩, -⟩
      omega
    · cases last with
      | none =>
        simp only [validate_execution_requests_loop, if_neg hlen]
        rw [ih]
        simp only [requestTypes]
        constructor
        · rintro ⟨hl, hch⟩
          exact ⟨⟨by omega, hl⟩, hch⟩
        · rintro ⟨⟨-, hl⟩, hch⟩
          exact ⟨hl, hch⟩
      | some l =>
        simp only [validate_execution_requests_loop, if_neg hlen]
        by_cases hlt : firstByte r < l
        · rw [if_pos hlt]
          refine iff_of_false (by simp) ?_
          rintro ⟨-, hch⟩
          have hgt : l < firstByte r := (List.chain_cons.mp hch).1
          omega
        · by_cases heq : firstByte r = l
          · rw [if_neg hlt, if_pos heq]
            refine iff_of_false (by simp) ?_
            rintro ⟨-, hch⟩
            have hgt : l < firstByte r := (List.chain_cons.mp hch).1
            omega
          · rw [if_neg hlt, if_neg heq, ih]
            simp only [requestTypes]
            constructor
            · rintro ⟨hl, hch⟩
              exact ⟨⟨by omega, hl⟩, List.chain_cons.mpr ⟨by omega, hch⟩⟩
            · rintro ⟨⟨-, hl⟩, hch⟩
              exact ⟨hl, (List.chain_cons.mp hch).2⟩

theorem validate_execution_requests_loop_error_shape (last : Option Nat)
    (rs : List (List Nat)) :
    validate_execution_requests_loop last rs = .ok () ∨
      ∃ s : String,
        validate_execution_requests_loop last rs = .error (.InvalidParams s) := by
  induction rs generalizing last with
  | nil => left; rfl
  | cons r rest ih =>
    by_cases hlen : r.length ≤ 1
    · exact Or.inr ⟨"EmptyExecutionRequest", by
        simp only [validate_execution_requests_loop, if_pos hlen]⟩
    · cases last with
      | none =>
        rw [show validate_execution_requests_loop none (r :: rest) =
            validate_execution_requests_loop (some (firstByte r)) rest from by
          simp only [validate_execution_requests_loop, if_neg hlen]]
        exact ih _
      | some l =>
        by_cases hlt : firstByte r < l
        · exact Or.inr ⟨"OutOfOrderExecutionRequest", by
            simp only [validate_execution_requests_loop, if_neg hlen, if_pos hlt]⟩
        · by_cases heq : firstByte r = l
          · exact Or.inr ⟨"DuplicatedExecutionRequestType", by
              simp only [validate_execution_requests_loop, if_neg hlen,
                if_neg hlt, if_pos heq]⟩
          · rw [show validate_execution_requests_loop (some l) (r :: rest) =
                validate_execution_requests_loop (some (firstByte r)) rest from by
              simp only [validate_execution_requests_loop, if_neg hlen,
                if_neg hlt, if_neg heq]]
            exact ih _

/-- C9: `validate_execution_requests` succeeds iff every request is at least 2
bytes long and the request types (first bytes) are strictly increasing over
the whole list — hence all request types are distinct and ascending;
otherwise it fails with an `InvalidParams` error. The empty list trivially
satisfies the right-hand side, hence succeeds. -/
theorem validate_execution_requests_spec :
    ∀ rs : List (List Nat),
      (validate_execution_requests rs = .ok () ↔
        (∀ r ∈ rs, 2 ≤ r.length) ∧
          List.Chain' (· < ·) (rs.map firstByte)) ∧
      (validate_execution_requests rs = .ok () ∨
        ∃ s : String,
          validate_execution_requests rs = .error (.InvalidParams s)) := by
  intro rs
  constructor
  · exact validate_execution_requests_loop_ok_iff none rs
  · exact validate_execution_requests_loop_error_shape none rs

/-- Modelled from the spec: the pool's admission / replacement / eviction /
re-partition code is not among the provided sources. A resident transaction's
identity and the ordering attribute the replacement rule reads (§3): hash,
sender address, nonce, max fee per gas. -/
structure PooledTransaction where
  hash : Nat
  sender : Nat
  nonce : Nat
  max_fee_per_gas : Nat
deriving DecidableEq, Repr

/-- The (sender, nonce) slot a resident transaction occupies. -/
def PooledTransaction.slot (tx : PooledTransaction) : Nat × Nat :=
  (tx.sender, tx.nonce)

/-- Modelled from the spec: §3/§8 invariant — "no two resident transactions
share (sender, nonce)" — stated of the resident set. -/
def uniqueSlots (pool : List PooledTransaction) : Prop :=
  (pool.map PooledTransaction.slot).Nodup

/-- Outcome reported by a submit. -/
inductive SubmitOutcome where
  | Admitted
  | Replaced (incumbent : PooledTransaction)
  | Rejected (kind : PoolErrorKind)
deriving DecidableEq, Repr

/-- Modelled from the spec: §3 and §4.4 — "a new transaction for an occupied
slot either replaces the incumbent (subject to the replacement rule in §4.4)
or is rejected"; the replacement rule admits the newcomer only if its fee is
strictly greater, otherwise the submission "is rejected with
`ReplacementUnderpriced`, and the incumbent is left untouched (no partial
state change on rejection)". An unoccupied slot admits the transaction. -/
def submitTransaction (pool : List PooledTransaction) (tx : PooledTransaction) :
    SubmitOutcome × List PooledTransaction :=
  match pool.find? (fun t => t.sender == tx.sender && t.nonce == tx.nonce) with
  | some incumbent =>
    if incumbent.max_fee_per_gas < tx.max_fee_per_gas then
      (.Replaced incumbent,
        tx :: pool.filter (fun t => !(t.sender == tx.sender && t.nonce == tx.nonce)))
    else
      (.Rejected .ReplacementUnderpriced, pool)
  | none => (.Admitted, tx :: pool)

/-- Modelled from the spec: §4.4 — capacity eviction removes a selected
resident transaction (identified by hash) from the resident set. -/
def evictTransaction (pool : List PooledTransaction) (h : Nat) :
    List PooledTransaction :=
  pool.filter (fun t => !(t.hash == h))

/-- Modelled from the spec: §2 — on each new chain head the partition engine
re-evaluates every pooled transaction and "moves it between sub-pools or
drops it if now invalid"; sub-pool membership is a derived projection (§3),
so the resident set after re-partitioning is the subset that is still
valid. -/
def repartitionOnNewHead (pool : List PooledTransaction)
    (stillValid : PooledTransaction → Bool) : List PooledTransaction :=
  pool.filter stillValid

theorem uniqueSlots_filter (pool : List PooledTransaction)
    (p : PooledTransaction → Bool) (hu : uniqueSlots pool) :
    uniqueSlots (pool.filter p) :=
  List.Nodup.sublist (List.Sublist.map _ (List.filter_sublist _)) hu

/-- C5: each pool operation — admission / replacement via submit, eviction,
and re-partitioning on a new head — preserves the invariant that at most one
resident transaction occupies any (sender, nonce) slot. -/
theorem slot_uniqueness_preserved (pool : List PooledTransaction)
    (tx : PooledTransaction) (h : Nat)
    (stillValid : PooledTransaction → Bool)
    (hu : uniqueSlots pool) :
    uniqueSlots (submitTransaction pool tx).2 ∧
    uniqueSlots (evictTransaction pool h) ∧
    uniqueSlots (repartitionOnNewHead pool stillValid) := by
  refine ⟨?_, uniqueSlots_filter pool _ hu, uniqueSlots_filter pool _ hu⟩
  unfold submitTransaction
  cases hfind : pool.find? (fun t => t.sender == tx.sender && t.nonce == tx.nonce) with
  | none =>
    simp only [uniqueSlots, List.map_cons, List.nodup_cons]
    refine ⟨?_, hu⟩
    intro hmem
    obtain ⟨t, ht, hslot⟩ := List.mem_map.mp hmem
    have hfail := List.find?_eq_none.mp hfind t ht
    simp only [PooledTransaction.slot, Prod.mk.injEq] at hslot
    simp [hslot.1, hslot.2] at hfail
  | some incumbent =>
    by_cases hfee : incumbent.max_fee_per_gas < tx.max_fee_per_gas
    · simp only [if_pos hfee, uniqueSlots, List.map_cons, List.nodup_cons]
      refine ⟨?_, uniqueSlots_filter pool _ hu⟩
      intro hmem
      obtain ⟨t, ht, hslot⟩ := List.mem_map.mp hmem
      have hkeep := List.of_mem_filter ht
      simp only [PooledTransaction.slot, Prod.mk.injEq] at hslot
      simp [hslot.1, hslot.2] at hkeep
    · simp only [if_neg hfee]
      exact hu

/-- Witness for C5 at a concrete two-transaction pool. -/
theorem slot_uniqueness_preserved_witness :
    uniqueSlots [PooledTransaction.mk 1 1 5 100, PooledTransaction.mk 2 1 6 100] ∧
    (uniqueSlots (submitTransaction
        [PooledTransaction.mk 1 1 5 100, PooledTransaction.mk 2 1 6 100]
        (PooledTransaction.mk 3 2 5 50)).2 ∧
     uniqueSlots (evictTransaction
        [PooledTransaction.mk 1 1 5 100, PooledTransaction.mk 2 1 6 100] 1) ∧
     uniqueSlots (repartitionOnNewHead
        [PooledTransaction.mk 1 1 5 100, PooledTransaction.mk 2 1 6 100]
        (fun _ => true))) :=
  ⟨by unfold uniqueSlots; decide,
   slot_uniqueness_preserved
     [PooledTransaction.mk 1 1 5 100, PooledTransaction.mk 2 1 6 100]
     (PooledTransaction.mk 3 2 5 50) 1 (fun _ => true) (by unfold uniqueSlots; decide)⟩

/-- C6: submitting at an occupied (sender, nonce) slot with a strictly lower
max-fee-per-gas than the incumbent returns `ReplacementUnderpriced`, and the
pool is unchanged: the incumbent remains resident with all attributes
intact. -/
theorem underpriced_replacement_rejected (pool : List PooledTransaction)
    (incumbent tx : PooledTransaction)
    (hu : uniqueSlots pool)
    (hmem : incumbent ∈ pool)
    (hsender : incumbent.sender = tx.sender)
    (hnonce : incumbent.nonce = tx.nonce)
    (hfee : tx.max_fee_per_gas < incumbent.max_fee_per_gas) :
    submitTransaction pool tx = (.Rejected .ReplacementUnderpriced, pool) ∧
      incumbent ∈ (submitTransaction pool tx).2 := by
  have hres : submitTransaction pool tx = (.Rejected .ReplacementUnderpriced, pool) := by
    unfold submitTransaction
    cases hfind : pool.find? (fun t => t.sender == tx.sender && t.nonce == tx.nonce) with
    | none =>
      have hfail := List.find?_eq_none.mp hfind incumbent hmem
      simp [hsender, hnonce] at hfail
    | some found =>
      have hfoundmem : found ∈ pool := List.mem_of_find?_eq_some hfind
      have hpred := List.find?_some hfind
      simp only [Bool.and_eq_true, beq_iff_eq] at hpred
      have heq : found = incumbent := by
        refine List.inj_on_of_nodup_map hu hfoundmem hmem ?_
        simp only [PooledTransaction.slot, hpred.1, hpred.2, hsender, hnonce]
      subst heq
      have hnot : ¬ found.max_fee_per_gas < tx.max_fee_per_gas := by omega
      simp only [if_neg hnot]
  refine ⟨hres, ?_⟩
  rw [hres]
  exact hmem

/-- Witness for C6 at a concrete one-transaction pool. -/
theorem underpriced_replacement_rejected_witness :
    (uniqueSlots [PooledTransaction.mk 1 7 5 100] ∧
     PooledTransaction.mk 1 7 5 100 ∈ [PooledTransaction.mk 1 7 5 100] ∧
     (PooledTransaction.mk 1 7 5 100).sender = (PooledTransaction.mk 2 7 5 99).sender ∧
     (PooledTransaction.mk 1 7 5 100).nonce = (PooledTransaction.mk 2 7 5 99).nonce ∧
     (PooledTransaction.mk 2 7 5 99).max_fee_per_gas <
       (PooledTransaction.mk 1 7 5 100).max_fee_per_gas) ∧
    (submitTransaction [PooledTransaction.mk 1 7 5 100] (PooledTransaction.mk 2 7 5 99) =
        (.Rejected .ReplacementUnderpriced, [PooledTransaction.mk 1 7 5 100]) ∧
      PooledTransaction.mk 1 7 5 100 ∈
        (submitTransaction [PooledTransaction.mk 1 7 5 100]
          (PooledTransaction.mk 2 7 5 99)).2) :=
  ⟨⟨by unfold uniqueSlots; decide, by decide, rfl, rfl, by decide⟩,
   underpriced_replacement_rejected [PooledTransaction.mk 1 7 5 100]
     (PooledTransaction.mk 1 7 5 100) (PooledTransaction.mk 2 7 5 99)
     (by unfold uniqueSlots; decide) (by decide) rfl rfl (by decide)⟩
